import Mathlib

/-!
Formal model of the Radius AI-visibility pipeline.

The definitions below are a shallow embedding of the Python services
`radius_knowledge_engine.py`, `radius_llm_tester.py`, `radius_scoring_engine.py`
and `radius_engine.py` (backend/services).  Python dicts are modelled as
structures (a field that the code reads with `dict.get(key, default)` and that
can genuinely be absent is modelled as `Option`), Python numbers as `ℚ`/`ℤ`/`ℕ`
(the arithmetic in these services is exact at the scale the code uses it),
Python strings as `String`, and the external LLM calls as oracle parameters:
each call site that can return text or raise becomes an `Except String String`
argument.  Wall-clock timestamp fields (`created_at`, `tested_at`, ...) are
runtime clock reads and are omitted from the modelled records; no modelled
behaviour reads them.
-/

namespace Radius

/-! ## Python primitives -/

/-- Python `int(x)`: truncation toward zero. -/
def pyInt (q : ℚ) : ℤ := if 0 ≤ q then ⌊q⌋ else ⌈q⌉

/-- `max(0, min(100, x))` as used by the scoring engine. -/
def pyClamp (x : ℤ) : ℤ := max 0 (min 100 x)

/-- Membership test of Python `needle in hay` on character lists. -/
def charsContain (needle : List Char) : List Char → Bool
  | [] => needle.isEmpty
  | c :: rest => needle.isPrefixOf (c :: rest) || charsContain needle rest

/-- Python substring test `needle in hay`. -/
def strContains (hay needle : String) : Bool := charsContain needle.toList hay.toList

/-- Index of the first occurrence of `needle`, on character lists. -/
def charsFind (needle : List Char) : List Char → Option Nat
  | [] => if needle.isEmpty then some 0 else none
  | c :: rest =>
    if needle.isPrefixOf (c :: rest) then some 0 else (charsFind needle rest).map (· + 1)

/-- Python `hay.find(needle)`: first index, or -1 when absent. -/
def pyFind (hay needle : String) : ℤ :=
  match charsFind needle.toList hay.toList with
  | some n => (n : ℤ)
  | none => -1

/-- Python `s.lower()` (the code only ever lowercases ASCII-ish text). -/
def pyLower (s : String) : String := String.mk (s.toList.map Char.toLower)

/-- Python `s.capitalize()`: first character uppercased, the rest lowercased. -/
def pyCapitalize (s : String) : String :=
  match s.toList with
  | [] => ""
  | c :: rest => String.mk (c.toUpper :: rest.map Char.toLower)

/-- Helper for Python `s.title()`: a letter is uppercased exactly when the
previous character is not a letter. -/
def titleChars : List Char → Bool → List Char
  | [], _ => []
  | c :: rest, prevAlpha =>
    (if c.isAlpha then (if prevAlpha then c.toLower else c.toUpper) else c)
      :: titleChars rest c.isAlpha

/-- Python `s.title()`. -/
def pyTitle (s : String) : String := String.mk (titleChars s.toList false)

/-- Helper for Python `s.split('.')`. -/
def charsSplitDot : List Char → List Char → List (List Char)
  | acc, [] => [acc.reverse]
  | acc, c :: rest =>
    if c == '.' then acc.reverse :: charsSplitDot [] rest else charsSplitDot (c :: acc) rest

/-- Python `s.split('.')`. -/
def pySplitDot (s : String) : List String := (charsSplitDot [] s.toList).map String.mk

/-- Python slice `s[:n]`. -/
def pySlice (s : String) (n : Nat) : String := String.mk (s.toList.take n)

/-! ## Data model: crawl result (radius_crawler.py output, the part the
knowledge engine reads) -/

/-- `crawl_result['metadata']` fields read downstream. -/
structure CrawlMetadata where
  domain : String
  pages_attempted : Nat
  pages_successful : Nat
deriving Repr, DecidableEq

/-- `crawl_result['extracted_data']` fields read by `_create_fallback_kb`.
`title` is `Option`: `none` models the key being absent from the dict, so that
`extracted.get('title', default)` can be modelled faithfully (the real crawler
always emits the key, initialised to `""`). -/
structure ExtractedData where
  title : Option String
  meta_description : String
  social_proof : List String
  trust_signals : List String
deriving Repr, DecidableEq

/-- The crawl result as consumed by the knowledge engine: metadata, the
`raw_content` section map (section name, text), and extracted data. -/
structure CrawlResult where
  metadata : CrawlMetadata
  raw_content : List (String × String)
  extracted_data : ExtractedData
deriving Repr, DecidableEq

/-! ## Data model: knowledge base (radius_knowledge_engine.py) -/

structure Product where
  name : String
  description : String
  target_user : String
deriving Repr, DecidableEq

structure CompanyOverview where
  name : String
  tagline : String
  description : String
  founded : String
  headquarters : String
deriving Repr, DecidableEq

structure BusinessModel where
  type : String
  primary_offering : String
  revenue_model : String
deriving Repr, DecidableEq

structure TargetCustomers where
  segments : List String
  company_sizes : List String
  industries : List String
  use_cases : List String
deriving Repr, DecidableEq

structure ValueProposition where
  primary_benefit : String
  differentiators : List String
  proof_points : List String
deriving Repr, DecidableEq

structure TrustAndSafety where
  certifications : List String
  compliance : List String
  security_features : List String
deriving Repr, DecidableEq

structure PricingInfo where
  model : String
  tiers : List String
  transparency : String
deriving Repr, DecidableEq

structure ConfidenceNotes where
  high_confidence : List String
  medium_confidence : List String
  low_confidence : List String
deriving Repr, DecidableEq

/-- The `knowledge_base` JSON object (GPT output shape / fallback shape). -/
structure KnowledgeBase where
  company_overview : CompanyOverview
  business_model : BusinessModel
  products_and_services : List Product
  target_customers : TargetCustomers
  value_proposition : ValueProposition
  trust_and_safety : TrustAndSafety
  pricing : PricingInfo
  confidence_notes : ConfidenceNotes
deriving Repr, DecidableEq

/-- The `metadata` block the knowledge engine attaches.  `model` and
`total_content_chars` are present only on the gpt-refined path, hence
`Option`. -/
structure KBMetadata where
  source : String
  model : Option String
  overall_confidence : String
  confidence_score : ℚ
  pages_analyzed : Nat
  total_content_chars : Option Nat
  cache_used : Bool
deriving Repr, DecidableEq

/-- The value returned by `refine_and_create_kb` (knowledge base plus
metadata; the `field_confidence` / `raw_data_summary` reshaping blocks are
derived display data not read by any downstream modelled code). -/
structure KBResult where
  knowledge_base : KnowledgeBase
  metadata : KBMetadata
deriving Repr, DecidableEq

/-! ## Knowledge engine functions -/

/-- `sum(len(v) for v in raw_content.values() if v)`. -/
def totalContentChars (crawl_data : CrawlResult) : Nat :=
  ((crawl_data.raw_content.filter (fun p => p.2 != "")).map (fun p => p.2.length)).sum

/-- The local confidence computation inside
`RadiusKnowledgeEngine._validate_and_score` (label, score). -/
def confidenceOf (pages_crawled total_content : Nat) : String × ℚ :=
  if 5 ≤ pages_crawled ∧ 10000 < total_content then ("HIGH", 0.85)
  else if 3 ≤ pages_crawled ∧ 5000 < total_content then ("MEDIUM", 0.65)
  else ("LOW", 0.4)

/-- `RadiusKnowledgeEngine._validate_and_score`: package a parsed GPT
knowledge base with locally computed confidence metadata.  No content
validation is performed. -/
def validate_and_score (kb_response : KnowledgeBase) (crawl_data : CrawlResult) : KBResult :=
  let pages_crawled := crawl_data.metadata.pages_successful
  let total_content := totalContentChars crawl_data
  let conf := confidenceOf pages_crawled total_content
  { knowledge_base := kb_response
    metadata :=
      { source := "gpt_refined"
        model := some "gpt-4o"
        overall_confidence := conf.1
        confidence_score := conf.2
        pages_analyzed := pages_crawled
        total_content_chars := some total_content
        cache_used := false } }

/-- `RadiusKnowledgeEngine._create_fallback_kb`: the knowledge base returned
when no OpenAI client is configured or the GPT call fails. -/
def create_fallback_kb (crawl_data : CrawlResult) : KBResult :=
  let domain := crawl_data.metadata.domain
  let extracted := crawl_data.extracted_data
  { knowledge_base :=
      { company_overview :=
          { name := extracted.title.getD (pyCapitalize ((pySplitDot domain).headD ""))
            tagline := pySlice extracted.meta_description 200
            description :=
              "Company information could not be fully analyzed. Manual review recommended."
            founded := "Not stated"
            headquarters := "Not stated" }
        business_model :=
          { type := "Not determined"
            primary_offering := "Not determined"
            revenue_model := "Not determined" }
        products_and_services := []
        target_customers := { segments := [], company_sizes := [], industries := [], use_cases := [] }
        value_proposition :=
          { primary_benefit := "Not determined"
            differentiators := []
            proof_points := extracted.social_proof }
        trust_and_safety :=
          { certifications := extracted.trust_signals
            compliance := []
            security_features := [] }
        pricing := { model := "Not determined", tiers := [], transparency := "Not stated" }
        confidence_notes :=
          { high_confidence := []
            medium_confidence := []
            low_confidence := ["All fields - GPT analysis unavailable"] } }
    metadata :=
      { source := "fallback"
        model := none
        overall_confidence := "LOW"
        confidence_score := 0.2
        pages_analyzed := crawl_data.metadata.pages_successful
        total_content_chars := none
        cache_used := false } }

/-- Outcome of the GPT refinement call: a parsed knowledge base, or a raised
exception / JSON parse failure carrying a message. -/
inductive GptOutcome where
  | ok (kb : KnowledgeBase)
  | failure (msg : String)
deriving Repr, DecidableEq

/-- `RadiusKnowledgeEngine.refine_and_create_kb`: falls back when no client is
configured or the GPT call raises; otherwise packages the parsed response via
`_validate_and_score` without any further validation. -/
def refine_and_create_kb (has_client : Bool) (gpt : GptOutcome) (crawl_data : CrawlResult) :
    KBResult :=
  if !has_client then create_fallback_kb crawl_data
  else
    match gpt with
    | .ok kb => validate_and_score kb crawl_data
    | .failure _ => create_fallback_kb crawl_data

/-- Orchestrator fallback score (radius_engine.py, `run_llm_tests=False`
branch): `int(kb_confidence * 60)` where `kb_confidence` is the metadata
confidence score. -/
def basicOverallScore (kb_result : KBResult) : ℤ :=
  pyInt (kb_result.metadata.confidence_score * 60)

/-- Rank of a confidence label under the ordering LOW < MEDIUM < HIGH. -/
def confRank (label : String) : Nat :=
  if label == "HIGH" then 2 else if label == "MEDIUM" then 1 else 0

/-- Modelled from the spec: the placeholder test the spec attributes to the
Knowledge Refiner validation gate ("please describe", "lorem ipsum" in any
field).  No such check exists in `radius_knowledge_engine.py`; this predicate
formalises the spec wording so the claimed gate can be compared with the
code. -/
def specPlaceholderIn (s : String) : Bool :=
  strContains (pyLower s) "please describe" || strContains (pyLower s) "lorem ipsum"

/-- Modelled from the spec: whether any textual field of a generated knowledge
base contains placeholder language. -/
def specKbHasPlaceholder (kb : KnowledgeBase) : Bool :=
  specPlaceholderIn kb.company_overview.name ||
  specPlaceholderIn kb.company_overview.tagline ||
  specPlaceholderIn kb.company_overview.description ||
  specPlaceholderIn kb.business_model.type ||
  specPlaceholderIn kb.business_model.primary_offering ||
  specPlaceholderIn kb.business_model.revenue_model ||
  (kb.products_and_services.any fun p =>
    specPlaceholderIn p.name || specPlaceholderIn p.description) ||
  specPlaceholderIn kb.value_proposition.primary_benefit ||
  specPlaceholderIn kb.pricing.model

/-! ## Data model: LLM tester (radius_llm_tester.py) -/

/-- A generated test question record (the fields the tester and
`get_test_question` read). -/
structure Question where
  id : String
  text : String
  category : String
deriving Repr, DecidableEq

/-- The `analysis` dict produced by `RadiusLLMTester._analyze_response`. -/
structure ResponseAnalysis where
  mentioned : Bool
  mention_position : ℤ
  product_mentions : Nat
  sentiment : String
  competitors_mentioned : List String
  hallucination_risk : String
  response_length : Nat
  contains_recommendation : Bool
deriving Repr, DecidableEq

/-- The positive keyword list of `_analyze_response`. -/
def positive_words : List String :=
  ["best", "excellent", "great", "leading", "top", "recommended", "popular", "trusted"]

/-- The negative keyword list of `_analyze_response`. -/
def negative_words : List String :=
  ["avoid", "issue", "problem", "concern", "limited", "expensive", "difficult"]

/-- `RadiusLLMTester._analyze_response`: purely lexical analysis of one raw
LLM answer. -/
def analyze_response (response company_name : String) (kb : KnowledgeBase) : ResponseAnalysis :=
  let response_lower := pyLower response
  let company_lower := pyLower company_name
  let mentioned := strContains response_lower company_lower
  let product_mentions :=
    (kb.products_and_services.filter fun p => strContains response_lower (pyLower p.name)).length
  let positive_count := (positive_words.filter fun w => strContains response_lower w).length
  let negative_count := (negative_words.filter fun w => strContains response_lower w).length
  let sentiment :=
    if negative_count < positive_count then "positive"
    else if positive_count < negative_count then "negative"
    else "neutral"
  let hallucination_risk :=
    if mentioned && strContains response_lower "founded" &&
        !(strContains (pyLower kb.company_overview.founded) "not stated") then "medium"
    else "low"
  { mentioned := mentioned
    mention_position := if mentioned then pyFind response_lower company_lower else -1
    product_mentions := product_mentions
    sentiment := sentiment
    competitors_mentioned := []
    hallucination_risk := hallucination_risk
    response_length := response.length
    contains_recommendation :=
      ["recommend", "suggest", "consider", "try"].any fun w => strContains response_lower w }

/-- One entry of a platform's `results` list: a successful call carrying the
analysis, or a per-question `error` entry. -/
inductive QResult where
  | ok (question_id question response : String) (analysis : ResponseAnalysis)
  | err (question_id question error : String)
deriving Repr, DecidableEq

/-- Whether a results entry is a non-error entry whose analysis flags a
mention. -/
def qresultMentioned : QResult → Bool
  | .ok _ _ _ a => a.mentioned
  | .err _ _ _ => false

/-- A per-platform result dict.  `model` is absent on unavailable platforms,
`reason` is present only there, `simulated_score`/`simulated_summary` only on
the simulated path; `mention_count` is `ℤ` because the simulated path computes
it as `int(mr * n)` from model-supplied data. -/
structure PlatformData where
  platform : String
  model : Option String
  available : Bool
  reason : Option String
  questions_tested : Nat
  mention_count : ℤ
  mention_rate : ℚ
  results : List QResult
  simulated_score : Option ℚ
  simulated_summary : Option String
deriving Repr, DecidableEq

/-- One iteration of a provider test loop: the oracle is the outcome of the
external call for the question at this index (answer text, or the message of
the exception / non-200 reply). -/
def runQuestion (oracle : Nat → Except String String) (company_name : String)
    (kb : KnowledgeBase) (idx : Nat) (q : Question) : QResult :=
  match oracle idx with
  | .ok answer =>
    QResult.ok q.id q.text (pySlice answer 1500) (analyze_response answer company_name kb)
  | .error e => QResult.err q.id q.text e

/-- The shared `for q in questions[:5]` loop body of the four provider
testers: one results entry per question, errors included. -/
def testLoopResults (oracle : Nat → Except String String) (company_name : String)
    (kb : KnowledgeBase) (questions : List Question) : List QResult :=
  (questions.take 5).enum.map fun p => runQuestion oracle company_name kb p.1 p.2

/-- The shared result-dict construction of `_test_openai` / `_test_anthropic`
/ `_test_gemini` / `_test_perplexity`. -/
def mkPlatformResult (platform model : String) (oracle : Nat → Except String String)
    (questions : List Question) (company_name : String) (kb : KnowledgeBase) : PlatformData :=
  let results := testLoopResults oracle company_name kb questions
  let total_mentions := results.countP qresultMentioned
  { platform := platform
    model := some model
    available := true
    reason := none
    questions_tested := results.length
    mention_count := (total_mentions : ℤ)
    mention_rate := if results.isEmpty then 0 else (total_mentions : ℚ) / (results.length : ℚ)
    results := results
    simulated_score := none
    simulated_summary := none }

/-- `RadiusLLMTester._test_openai`. -/
def test_openai (oracle : Nat → Except String String) (questions : List Question)
    (company_name : String) (kb : KnowledgeBase) : PlatformData :=
  mkPlatformResult "ChatGPT" "gpt-4o-mini" oracle questions company_name kb

/-- `RadiusLLMTester._test_anthropic`. -/
def test_anthropic (oracle : Nat → Except String String) (questions : List Question)
    (company_name : String) (kb : KnowledgeBase) : PlatformData :=
  mkPlatformResult "Claude" "claude-3-haiku" oracle questions company_name kb

/-- `RadiusLLMTester._test_gemini`. -/
def test_gemini (oracle : Nat → Except String String) (questions : List Question)
    (company_name : String) (kb : KnowledgeBase) : PlatformData :=
  mkPlatformResult "Gemini" "gemini-2.0-flash" oracle questions company_name kb

/-- `RadiusLLMTester._test_perplexity` (a non-200 status and a raised
exception both become an `error` entry, so both are oracle `.error`s). -/
def test_perplexity (oracle : Nat → Except String String) (questions : List Question)
    (company_name : String) (kb : KnowledgeBase) : PlatformData :=
  mkPlatformResult "Perplexity" "llama-3.1-sonar-small-128k-online" oracle questions company_name kb

/-- `RadiusLLMTester._create_unavailable_result`. -/
def create_unavailable_result (platform reason : String) : PlatformData :=
  { platform := platform
    model := none
    available := false
    reason := some reason
    questions_tested := 0
    mention_count := 0
    mention_rate := 0
    results := []
    simulated_score := none
    simulated_summary := none }

/-- One per-platform object of the simulation JSON (each field can be absent,
matching `p.get(...)` with defaults). -/
structure SimEntry where
  score : Option ℚ
  summary : Option String
  mention_rate : Option ℚ
deriving Repr, DecidableEq

/-- The parsed simulation JSON (each platform key can be absent). -/
structure SimData where
  chatgpt : Option SimEntry
  claude : Option SimEntry
  gemini : Option SimEntry
  perplexity : Option SimEntry
deriving Repr, DecidableEq

/-- The hardcoded demo dict `_simulate_all_platforms` falls back to when the
simulation call or its JSON parse raises. -/
def demoSimData : SimData :=
  { chatgpt := some { score := some 65, summary := some "Moderate visibility", mention_rate := some 0.4 }
    claude := some { score := some 60, summary := some "Limited visibility", mention_rate := some 0.3 }
    gemini := some { score := some 62, summary := some "Some visibility", mention_rate := some 0.35 }
    perplexity := some { score := some 68, summary := some "Good factual coverage", mention_rate := some 0.45 } }

/-- Construction of one simulated platform result inside
`_simulate_all_platforms`. -/
def simPlatformResult (displayName : String) (entry : Option SimEntry)
    (questions : List Question) : PlatformData :=
  let p := entry
  let mr := (p.bind SimEntry.mention_rate).getD 0.3
  let n := (questions.take 5).length
  { platform := displayName
    model := some "gpt-4o-mini (simulated)"
    available := true
    reason := none
    questions_tested := n
    mention_count := pyInt (mr * (n : ℚ))
    mention_rate := mr
    results := []
    simulated_score := some ((p.bind SimEntry.score).getD 60)
    simulated_summary := some ((p.bind SimEntry.summary).getD "") }

/-- `RadiusLLMTester._simulate_all_platforms`: the `sim` argument is the
outcome of the one extra OpenAI call plus JSON parse. -/
def simulate_all_platforms (sim : Except String SimData) (questions : List Question) :
    List (String × PlatformData) :=
  let sim_data := match sim with
    | .ok d => d
    | .error _ => demoSimData
  [("chatgpt", simPlatformResult "ChatGPT" sim_data.chatgpt questions),
   ("claude", simPlatformResult "Claude" sim_data.claude questions),
   ("gemini", simPlatformResult "Gemini" sim_data.gemini questions),
   ("perplexity", simPlatformResult "Perplexity" sim_data.perplexity questions)]

/-- One entry of the summary's `platform_scores` dict. -/
structure PlatformScoreEntry where
  mention_rate : ℚ
  questions_tested : Nat
deriving Repr, DecidableEq

/-- The `summary` block returned by `RadiusLLMTester._calculate_summary`. -/
structure Summary where
  company_name : String
  overall_mention_rate : ℚ
  total_mentions : ℤ
  total_questions : Nat
  platform_scores : List (String × PlatformScoreEntry)
  visibility_grade : String
  platforms_tested : Nat
deriving Repr, DecidableEq

/-- `RadiusLLMTester._calculate_grade`. -/
def calculate_grade (mention_rate : ℚ) : String :=
  if 0.8 ≤ mention_rate then "A"
  else if 0.6 ≤ mention_rate then "B"
  else if 0.4 ≤ mention_rate then "C"
  else if 0.2 ≤ mention_rate then "D"
  else "F"

/-- `RadiusLLMTester._calculate_summary`. -/
def calculate_summary (platforms : List (String × PlatformData)) (company_name : String) :
    Summary :=
  let avail := platforms.filter fun p => p.2.available
  let total_mentions : ℤ := (avail.map fun p => p.2.mention_count).sum
  let total_questions : ℕ := (avail.map fun p => p.2.questions_tested).sum
  let platform_scores := avail.map fun p =>
    (p.1, PlatformScoreEntry.mk p.2.mention_rate p.2.questions_tested)
  let overall_mention_rate : ℚ :=
    if 0 < total_questions then (total_mentions : ℚ) / (total_questions : ℚ) else 0
  { company_name := company_name
    overall_mention_rate := overall_mention_rate
    total_mentions := total_mentions
    total_questions := total_questions
    platform_scores := platform_scores
    visibility_grade := calculate_grade overall_mention_rate
    platforms_tested := avail.length }

/-- Which provider clients are configured (OpenAI client, Anthropic client,
Gemini model, Perplexity key). -/
structure TesterKeys where
  openai : Bool
  anthropic : Bool
  gemini : Bool
  perplexity : Bool
deriving Repr, DecidableEq

/-- The `metadata` block of a `test_all_llms` result. -/
structure LLMMetadata where
  questions_tested : Nat
  platforms_available : List String
  cache_used : Bool
  simulated : Bool
deriving Repr, DecidableEq

/-- The full value returned by `RadiusLLMTester.test_all_llms`. -/
structure LLMResults where
  company_name : String
  platforms : List (String × PlatformData)
  summary : Summary
  metadata : LLMMetadata
deriving Repr, DecidableEq

/-- `RadiusLLMTester.test_all_llms`: provider dispatch.  `oO`/`oA`/`oG`/`oP`
are the per-question call oracles of the four providers and `sim` the outcome
of the one simulation call used on the only-OpenAI path. -/
def test_all_llms (keys : TesterKeys)
    (oO oA oG oP : Nat → Except String String) (sim : Except String SimData)
    (questions : List Question) (kb_result : KBResult) : LLMResults :=
  let company_name := kb_result.knowledge_base.company_overview.name
  let kb := kb_result.knowledge_base
  let only_openai := keys.openai && !keys.anthropic && !keys.gemini && !keys.perplexity
  let platforms : List (String × PlatformData) :=
    if only_openai then simulate_all_platforms sim questions
    else
      [("chatgpt",
        if keys.openai then test_openai oO questions company_name kb
        else create_unavailable_result "ChatGPT" "OPENAI_API_KEY not set"),
       ("claude",
        if keys.anthropic then test_anthropic oA questions company_name kb
        else create_unavailable_result "Claude" "ANTHROPIC_API_KEY not set"),
       ("gemini",
        if keys.gemini then test_gemini oG questions company_name kb
        else create_unavailable_result "Gemini" "GEMINI_API_KEY not set"),
       ("perplexity",
        if keys.perplexity then test_perplexity oP questions company_name kb
        else create_unavailable_result "Perplexity" "PERPLEXITY_API_KEY not set")]
  let platforms_available : List String :=
    if only_openai then ["chatgpt", "claude", "gemini", "perplexity"]
    else
      (if keys.openai then ["chatgpt"] else []) ++
      (if keys.anthropic then ["claude"] else []) ++
      (if keys.gemini then ["gemini"] else []) ++
      (if keys.perplexity then ["perplexity"] else [])
  { company_name := company_name
    platforms := platforms
    summary := calculate_summary platforms company_name
    metadata :=
      { questions_tested := questions.length
        platforms_available := platforms_available
        cache_used := false
        simulated := only_openai } }

/-! ## Scoring engine (radius_scoring_engine.py) -/

/-- The `details` dict attached to a dimension score (empty on sentinel
results). -/
inductive ScoreDetails where
  | empty
  | accuracy (accurate_mentions hallucination_risks total_analyzed : Nat)
  | consistency (overall_mention_rate : ℚ) (platform_rates : List (String × ℚ))
      (platforms_tested : Nat)
  | safety (positive_mentions negative_mentions neutral_mentions total_mentions : Nat)
  | readability (avg_response_length : ℤ) (recommendation_rate : ℚ) (total_responses : Nat)
deriving Repr, DecidableEq

/-- One dimension score record. -/
structure DimScore where
  score : ℤ
  grade : String
  reason : String
  details : ScoreDetails
deriving Repr, DecidableEq

/-- The `overall_score` record (its `weights` entry is the constant dict
0.30/0.35/0.20/0.15 and is kept as the global weight constants below). -/
structure OverallScore where
  score : ℤ
  grade : String
  reason : String
deriving Repr, DecidableEq

def weight_accuracy : ℚ := 0.30
def weight_consistency : ℚ := 0.35
def weight_safety : ℚ := 0.20
def weight_readability : ℚ := 0.15

/-- `RadiusScoringEngine._score_to_grade`. -/
def score_to_grade (score : ℤ) : String :=
  if 90 ≤ score then "A+"
  else if 80 ≤ score then "A"
  else if 70 ≤ score then "B"
  else if 60 ≤ score then "C"
  else if 50 ≤ score then "D"
  else "F"

/-- The analyses the scoring loops iterate over: every non-error results
entry of every available platform, in platform order. -/
def analyzedAnalyses (platforms : List (String × PlatformData)) : List ResponseAnalysis :=
  platforms.flatMap fun p =>
    if p.2.available then
      p.2.results.filterMap fun r =>
        match r with
        | .ok _ _ _ a => some a
        | .err _ _ _ => none
    else []

/-- `RadiusScoringEngine._generate_accuracy_reason` (its `total` argument is
unused by the Python body and dropped here). -/
def generate_accuracy_reason (rate : ℚ) (hallucinations : Nat) : String :=
  if 0.8 ≤ rate then
    "High accuracy: " ++ toString (pyInt (rate * 100)) ++
      "% of mentions are accurate with minimal hallucination risk"
  else if 0.5 ≤ rate then
    "Moderate accuracy: " ++ toString (pyInt (rate * 100)) ++ "% accuracy rate. " ++
      toString hallucinations ++ " potential hallucination risks detected"
  else
    "Low accuracy: Only " ++ toString (pyInt (rate * 100)) ++
      "% of mentions appear accurate. Review AI outputs for errors"

/-- `RadiusScoringEngine._calculate_accuracy`. -/
def calculate_accuracy (llm_results : LLMResults) : DimScore :=
  let analyses := analyzedAnalyses llm_results.platforms
  let total_analyzed := analyses.length
  let accurate_mentions :=
    analyses.countP fun a => a.mentioned && (a.hallucination_risk == "low")
  let hallucination_risks :=
    analyses.countP fun a => a.mentioned && !(a.hallucination_risk == "low")
  if total_analyzed == 0 then
    { score := 0, grade := "N/A", reason := "No LLM responses to analyze", details := .empty }
  else
    let accuracy_rate : ℚ := (accurate_mentions : ℚ) / (total_analyzed : ℚ)
    let score := pyInt (accuracy_rate * 100)
    { score := score
      grade := score_to_grade score
      reason := generate_accuracy_reason accuracy_rate hallucination_risks
      details := .accuracy accurate_mentions hallucination_risks total_analyzed }

/-- `RadiusScoringEngine._generate_consistency_reason`. -/
def generate_consistency_reason (rate : ℚ) : String :=
  if 0.7 ≤ rate then
    "Strong consistency: Mentioned in " ++ toString (pyInt (rate * 100)) ++
      "% of queries across platforms"
  else if 0.4 ≤ rate then
    "Moderate consistency: " ++ toString (pyInt (rate * 100)) ++
      "% mention rate. Some platforms underperform"
  else
    "Low consistency: Only " ++ toString (pyInt (rate * 100)) ++
      "% mention rate. Significant visibility gap"

/-- Maximum of a rate list (the code only takes it on nonempty lists). -/
def listMax : List ℚ → ℚ
  | [] => 0
  | x :: xs => xs.foldl max x

/-- Minimum of a rate list (the code only takes it on nonempty lists). -/
def listMin : List ℚ → ℚ
  | [] => 0
  | x :: xs => xs.foldl min x

/-- The `(name, mention_rate)` pairs of the available platforms, as collected
by `_calculate_consistency`. -/
def platformRates (llm_results : LLMResults) : List (String × ℚ) :=
  llm_results.platforms.filterMap fun p =>
    if p.2.available then some (p.1, p.2.mention_rate) else none

/-- `RadiusScoringEngine._calculate_consistency`. -/
def calculate_consistency (llm_results : LLMResults) : DimScore :=
  let mention_rate := llm_results.summary.overall_mention_rate
  let score0 := pyInt (mention_rate * 100)
  let platform_rates := platformRates llm_results
  let score :=
    if platform_rates.isEmpty then score0
    else
      let rates := platform_rates.map Prod.snd
      let variance := listMax rates - listMin rates
      let consistency_penalty := pyInt (variance * 20)
      max 0 (score0 - consistency_penalty)
  { score := score
    grade := score_to_grade score
    reason := generate_consistency_reason mention_rate
    details :=
      .consistency mention_rate platform_rates llm_results.summary.platforms_tested }

/-- `RadiusScoringEngine._generate_safety_reason`. -/
def generate_safety_reason (positive negative : ℚ) : String :=
  if negative < 0.1 ∧ 0.5 < positive then
    "Excellent sentiment: " ++ toString (pyInt (positive * 100)) ++
      "% positive mentions with minimal negative content"
  else if negative < 0.2 then
    "Good sentiment: Mostly positive/neutral with " ++ toString (pyInt (negative * 100)) ++
      "% negative"
  else
    "Sentiment concerns: " ++ toString (pyInt (negative * 100)) ++
      "% of mentions have negative sentiment"

/-- `RadiusScoringEngine._calculate_safety`. -/
def calculate_safety (llm_results : LLMResults) : DimScore :=
  let mentions := (analyzedAnalyses llm_results.platforms).filter ResponseAnalysis.mentioned
  let total_mentions := mentions.length
  let positive_mentions := mentions.countP fun a => a.sentiment == "positive"
  let negative_mentions := mentions.countP fun a => a.sentiment == "negative"
  let neutral_mentions :=
    mentions.countP fun a => !(a.sentiment == "positive") && !(a.sentiment == "negative")
  if total_mentions == 0 then
    { score := 50, grade := "C", reason := "Not enough data to assess safety", details := .empty }
  else
    let positive_rate : ℚ := (positive_mentions : ℚ) / (total_mentions : ℚ)
    let negative_rate : ℚ := (negative_mentions : ℚ) / (total_mentions : ℚ)
    let score0 :=
      pyInt (positive_rate * 100 + (neutral_mentions : ℚ) / (total_mentions : ℚ) * 70 -
        negative_rate * 50)
    let score := pyClamp score0
    { score := score
      grade := score_to_grade score
      reason := generate_safety_reason positive_rate negative_rate
      details := .safety positive_mentions negative_mentions neutral_mentions total_mentions }

/-- `RadiusScoringEngine._calculate_readability`. -/
def calculate_readability (llm_results : LLMResults) : DimScore :=
  let analyses := analyzedAnalyses llm_results.platforms
  let total_responses := analyses.length
  let recommendation_count := analyses.countP ResponseAnalysis.contains_recommendation
  let length_sum := (analyses.map fun a => a.response_length).sum
  if total_responses == 0 then
    { score := 50, grade := "C", reason := "Not enough data to assess readability"
      details := .empty }
  else
    let avg_response_length : ℚ := (length_sum : ℚ) / (total_responses : ℚ)
    let recommendation_rate : ℚ := (recommendation_count : ℚ) / (total_responses : ℚ)
    let score : ℤ := min 100
      (50 + (if 500 < avg_response_length then 20 else 0) +
        (if 300 < avg_response_length then 10 else 0) +
        (if (1 : ℚ)/2 < recommendation_rate then 20 else 0))
    { score := score
      grade := score_to_grade score
      reason := "Responses average " ++ toString (pyInt avg_response_length) ++
        " characters with " ++ toString (pyInt (recommendation_rate * 100)) ++
        "% containing recommendations"
      details :=
        .readability (pyInt avg_response_length) recommendation_rate total_responses }

/-- One entry of the report's `platform_scores` dict. -/
structure PlatformScore where
  score : ℤ
  grade : String
  reason : String
  available : Bool
  model : Option String
deriving Repr, DecidableEq

/-- `RadiusScoringEngine._calculate_platform_scores`. -/
def calculate_platform_scores (llm_results : LLMResults) : List (String × PlatformScore) :=
  llm_results.platforms.map fun p =>
    if !p.2.available then
      (p.1, { score := 0, grade := "N/A"
              reason := p.2.reason.getD "Platform not available"
              available := false, model := none })
    else
      let score := pyInt (p.2.mention_rate * 100)
      (p.1, { score := score, grade := score_to_grade score
              reason := "Mentioned in " ++ toString p.2.mention_count ++ "/" ++
                toString p.2.questions_tested ++ " questions"
              available := true, model := some (p.2.model.getD "Unknown") })

/-- `RadiusScoringEngine._generate_overall_reason`. -/
def generate_overall_reason (score : ℤ) (accuracy consistency safety : DimScore) : String :=
  let parts : List String :=
    (if consistency.score < 50 then ["low visibility"]
     else if 70 ≤ consistency.score then ["good visibility"] else []) ++
    (if accuracy.score < 60 then ["accuracy concerns"] else []) ++
    (if safety.score < 60 then ["sentiment issues"] else [])
  if parts.isEmpty then
    "Overall strong AI visibility with score of " ++ toString score ++ "/100"
  else
    "Score of " ++ toString score ++ "/100 with " ++ String.intercalate ", " parts

/-- `RadiusScoringEngine._calculate_overall`: the weighted overall score. -/
def calculate_overall (accuracy consistency safety readability : DimScore) : OverallScore :=
  let weighted_score : ℚ :=
    (accuracy.score : ℚ) * weight_accuracy + (consistency.score : ℚ) * weight_consistency +
      (safety.score : ℚ) * weight_safety + (readability.score : ℚ) * weight_readability
  let score := pyInt weighted_score
  { score := score
    grade := score_to_grade score
    reason := generate_overall_reason score accuracy consistency safety }

/-- One recommendation record. -/
structure Recommendation where
  priority : String
  category : String
  title : String
  description : String
  impact : String
  actions : List String
deriving Repr, DecidableEq

/-- `RadiusScoringEngine._generate_recommendations`. -/
def generate_recommendations (accuracy consistency safety : DimScore)
    (llm_results : LLMResults) : List Recommendation :=
  (if consistency.score < 50 then
    [{ priority := "HIGH", category := "visibility", title := "Improve AI Visibility"
       description := "Your brand is mentioned in less than 50% of relevant queries. Consider creating more content that aligns with how users search."
       impact := "+20-30 visibility points"
       actions := ["Create FAQ pages answering common questions",
                   "Publish comparison content",
                   "Optimize documentation for discoverability"] }]
   else []) ++
  (llm_results.summary.platform_scores.filterMap fun p =>
    if p.2.mention_rate < 0.3 then
      some { priority := "MEDIUM", category := "platform"
             title := "Improve " ++ pyTitle p.1 ++ " Visibility"
             description := "Low visibility on " ++ pyTitle p.1 ++
               ". This platform may require specific optimization."
             impact := "+10-15 points on this platform"
             actions := ["Analyze how " ++ pyTitle p.1 ++ " cites sources",
                         "Ensure key pages are indexable",
                         "Add structured data markup"] }
    else none) ++
  (if safety.score < 60 then
    [{ priority := "MEDIUM", category := "reputation", title := "Address Sentiment Concerns"
       description := "Some AI responses show neutral or negative sentiment. Monitor and address any reputation issues."
       impact := "Improved brand perception"
       actions := ["Monitor AI mentions regularly",
                   "Address any negative content",
                   "Amplify positive customer stories"] }]
   else []) ++
  (if accuracy.score < 70 then
    [{ priority := "HIGH", category := "accuracy", title := "Improve Information Accuracy"
       description := "AI responses may contain inaccuracies. Ensure your public information is clear and consistent."
       impact := "Reduced hallucination risk"
       actions := ["Update About page with clear facts",
                   "Publish verified company information",
                   "Create authoritative content"] }]
   else [])

/-- The dimension-score block of a score report. -/
structure DimensionScores where
  accuracy : DimScore
  consistency : DimScore
  safety : DimScore
  readability : DimScore
deriving Repr, DecidableEq

/-- The report returned by `RadiusScoringEngine.calculate_scores` (its
`metadata` block minus the wall-clock `calculated_at`). -/
structure ScoreReport where
  company_name : String
  overall_score : OverallScore
  dimension_scores : DimensionScores
  platform_scores : List (String × PlatformScore)
  recommendations : List Recommendation
  kb_confidence : String
  questions_used : Nat
  platforms_tested : List String
deriving Repr, DecidableEq

/-- `RadiusScoringEngine.calculate_scores` (`questions_total` is
`questions['metadata']['total_questions']`, the only field of the questions
argument the function reads). -/
def calculate_scores (knowledge_base : KBResult) (llm_results : LLMResults)
    (questions_total : Nat) : ScoreReport :=
  let company_name := knowledge_base.knowledge_base.company_overview.name
  let accuracy_score := calculate_accuracy llm_results
  let consistency_score := calculate_consistency llm_results
  let safety_score := calculate_safety llm_results
  let readability_score := calculate_readability llm_results
  { company_name := company_name
    overall_score :=
      calculate_overall accuracy_score consistency_score safety_score readability_score
    dimension_scores :=
      { accuracy := accuracy_score, consistency := consistency_score
        safety := safety_score, readability := readability_score }
    platform_scores := calculate_platform_scores llm_results
    recommendations :=
      generate_recommendations accuracy_score consistency_score safety_score llm_results
    kb_confidence := knowledge_base.metadata.overall_confidence
    questions_used := questions_total
    platforms_tested := llm_results.metadata.platforms_available }

/-! ## Orchestrator accessor (radius_engine.py) -/

/-- The record returned by `RadiusIntelligenceEngine.get_test_question`. -/
structure TestQuestion where
  question : String
  question_id : String
  category : String
  platform : String
  note : String
deriving Repr, DecidableEq

/-- `RadiusIntelligenceEngine.get_test_question`: returns the first stored
DISCOVERY question, else the first stored question, else `none`; never
generates anything.  `questions` is `analysis_result['questions']`. -/
def get_test_question (questions : List Question) (platform : String) : Option TestQuestion :=
  match questions with
  | [] => none
  | q0 :: _ =>
    match questions.find? (fun q => q.category == "DISCOVERY") with
    | some q =>
      some { question := q.text, question_id := q.id, category := q.category
             platform := platform
             note := "This is the same question used for scoring. Results should be reproducible." }
    | none =>
      some { question := q0.text, question_id := q0.id, category := q0.category
             platform := platform
             note := "This is the same question used for scoring." }

/-! ## Concrete instances

Small concrete values used to evaluate the model: a failed crawl of
`example.com` exactly as `crawl_comprehensive` reports it (every
`raw_content` section and the `title` key present but empty), a
placeholder-ridden GPT reply, a tiny knowledge base and question set, and a
one-provider test run. -/

/-- The crawl result for a domain where every page fetch failed (the 404
scenario): 1 attempted, 0 successful, all sections and extracted fields
initialised empty — in particular the `title` key is present with value
`""`. -/
def exampleCrawl : CrawlResult :=
  { metadata := { domain := "example.com", pages_attempted := 1, pages_successful := 0 }
    raw_content :=
      [("homepage", ""), ("about", ""), ("products", ""), ("pricing", ""),
       ("documentation", ""), ("support", ""), ("blog", ""), ("customers", ""),
       ("trust", ""), ("resources", "")]
    extracted_data :=
      { title := some "", meta_description := "", social_proof := [], trust_signals := [] } }

/-- A GPT knowledge-base reply consisting of placeholder language and almost
no words. -/
def kbLorem : KnowledgeBase :=
  { company_overview :=
      { name := "please describe your company", tagline := "", description := "lorem ipsum"
        founded := "", headquarters := "" }
    business_model := { type := "", primary_offering := "", revenue_model := "" }
    products_and_services := []
    target_customers := { segments := [], company_sizes := [], industries := [], use_cases := [] }
    value_proposition := { primary_benefit := "", differentiators := [], proof_points := [] }
    trust_and_safety := { certifications := [], compliance := [], security_features := [] }
    pricing := { model := "", tiers := [], transparency := "" }
    confidence_notes := { high_confidence := [], medium_confidence := [], low_confidence := [] } }

/-- A strictly smaller crawl than `crawlBig`: 0 pages, 0 chars. -/
def crawlSmall : CrawlResult :=
  { metadata := { domain := "a.com", pages_attempted := 1, pages_successful := 0 }
    raw_content := []
    extracted_data :=
      { title := some "", meta_description := "", social_proof := [], trust_signals := [] } }

/-- A crawl with strictly more pages and content than `crawlSmall`. -/
def crawlBig : CrawlResult :=
  { metadata := { domain := "b.com", pages_attempted := 2, pages_successful := 1 }
    raw_content := [("homepage", "welcome")]
    extracted_data :=
      { title := some "B", meta_description := "", social_proof := [], trust_signals := [] } }

/-- No provider key configured at all. -/
def noKeys : TesterKeys := { openai := false, anthropic := false, gemini := false, perplexity := false }

/-- An oracle whose every call raises. -/
def errOracle : Nat → Except String String := fun _ => Except.error "no client"

/-- A stored question list whose first DISCOVERY question is in second
position. -/
def questionsExample : List Question :=
  [{ id := "q_1", text := "How does Acme compare to other tools?", category := "COMPARISON" },
   { id := "q_2", text := "What tools help with AI visibility?", category := "DISCOVERY" },
   { id := "q_3", text := "Is Acme trustworthy?", category := "TRUST" }]

/-- A minimal refined knowledge base for the brand "Acme". -/
def kbAcme : KnowledgeBase :=
  { company_overview :=
      { name := "Acme", tagline := "Visibility for everyone"
        description := "Acme measures AI visibility.", founded := "Not stated"
        headquarters := "Not stated" }
    business_model := { type := "B2B", primary_offering := "Analytics", revenue_model := "Subscription" }
    products_and_services := []
    target_customers := { segments := [], company_sizes := [], industries := [], use_cases := [] }
    value_proposition := { primary_benefit := "Clarity", differentiators := [], proof_points := [] }
    trust_and_safety := { certifications := [], compliance := [], security_features := [] }
    pricing := { model := "Subscription", tiers := [], transparency := "Public" }
    confidence_notes := { high_confidence := [], medium_confidence := [], low_confidence := [] } }

/-- Five test questions. -/
def fiveQuestions : List Question :=
  [{ id := "q1", text := "What are the best tools for AI visibility?", category := "DISCOVERY" },
   { id := "q2", text := "Which analytics platform should a startup pick?", category := "DECISION" },
   { id := "q3", text := "How do teams measure brand mentions?", category := "USE_CASE" },
   { id := "q4", text := "Who are the leading vendors in this space?", category := "COMPARISON" },
   { id := "q5", text := "Which vendors can be trusted with data?", category := "TRUST" }]

/-- Provider answers for `fiveQuestions`: exactly the first two contain the
brand name. -/
def acmeOracle : Nat → Except String String := fun i =>
  if i == 0 then Except.ok "Acme is a widely used option"
  else if i == 1 then Except.ok "Many teams adopt acme for this job"
  else Except.ok "There are several vendors worth a look"

/-- The ChatGPT platform result of the one-provider scenario run. -/
def pdChatgpt : PlatformData := test_openai acmeOracle fiveQuestions "Acme" kbAcme

/-- A one-provider `test_all_llms`-shaped result built from `pdChatgpt`. -/
def llmScenario : LLMResults :=
  { company_name := "Acme"
    platforms := [("chatgpt", pdChatgpt)]
    summary := calculate_summary [("chatgpt", pdChatgpt)] "Acme"
    metadata :=
      { questions_tested := 5, platforms_available := ["chatgpt"], cache_used := false
        simulated := false } }

/-- A run with no platform data at all. -/
def llmEmpty : LLMResults :=
  { company_name := "Acme"
    platforms := []
    summary := calculate_summary [] "Acme"
    metadata :=
      { questions_tested := 0, platforms_available := [], cache_used := false
        simulated := false } }

/-- A simulation JSON entry whose model-supplied `mention_rate` is the
out-of-range value 40 (the code applies no range check to it). -/
def entry40 : SimEntry := { score := some 60, summary := some "ok", mention_rate := some 40 }

/-- A parsed simulation reply carrying `entry40` for all four platforms. -/
def simData40 : SimData :=
  { chatgpt := some entry40, claude := some entry40, gemini := some entry40
    perplexity := some entry40 }

/-- Only the OpenAI key configured: `test_all_llms` takes the simulated
path. -/
def onlyOpenai : TesterKeys :=
  { openai := true, anthropic := false, gemini := false, perplexity := false }

/-- A reachable `test_all_llms` result: the only-OpenAI simulated path with
the model-supplied mention rate 40 passed through unvalidated. -/
def llm40 : LLMResults :=
  test_all_llms onlyOpenai errOracle errOracle errOracle errOracle (.ok simData40)
    fiveQuestions (create_fallback_kb exampleCrawl)

/-! ## Helper lemmas -/

lemma pyInt_eq_floor (q : ℚ) (h : 0 ≤ q) : pyInt q = ⌊q⌋ := by
  rw [pyInt, if_pos h]

lemma pyInt_eq_of (q : ℚ) (z : ℤ) (h0 : 0 ≤ q) (h1 : (z : ℚ) ≤ q) (h2 : q < z + 1) :
    pyInt q = z := by
  rw [pyInt_eq_floor q h0]
  exact Int.floor_eq_iff.mpr ⟨h1, by exact_mod_cast h2⟩

lemma pyInt_nonneg (q : ℚ) (h : 0 ≤ q) : 0 ≤ pyInt q := by
  rw [pyInt_eq_floor q h]
  exact Int.floor_nonneg.mpr h

lemma pyInt_le_hundred (q : ℚ) (h0 : 0 ≤ q) (h : q ≤ 100) : pyInt q ≤ 100 := by
  rw [pyInt_eq_floor q h0]
  have hf := Int.floor_le_floor h
  simpa using hf

lemma pyInt_zero : pyInt 0 = 0 := by
  rw [pyInt_eq_floor 0 le_rfl]
  simp

lemma pyClamp_eq_self (x : ℤ) (h0 : 0 ≤ x) (h1 : x ≤ 100) : pyClamp x = x := by
  rw [pyClamp]
  omega

lemma pyClamp_bounds (x : ℤ) : 0 ≤ pyClamp x ∧ pyClamp x ≤ 100 := by
  rw [pyClamp]
  omega

lemma init_le_foldl_max (xs : List ℚ) : ∀ x : ℚ, x ≤ xs.foldl max x := by
  induction xs with
  | nil => intro x; exact le_rfl
  | cons y ys ih =>
    intro x
    calc x ≤ max x y := le_max_left x y
    _ ≤ ys.foldl max (max x y) := ih (max x y)

lemma foldl_min_le_init (xs : List ℚ) : ∀ x : ℚ, xs.foldl min x ≤ x := by
  induction xs with
  | nil => intro x; exact le_rfl
  | cons y ys ih =>
    intro x
    calc ys.foldl min (min x y) ≤ min x y := ih (min x y)
    _ ≤ x := min_le_left x y

lemma listMin_le_listMax (l : List ℚ) (h : l ≠ []) : listMin l ≤ listMax l := by
  match l with
  | [] => exact absurd rfl h
  | x :: xs =>
    simp only [listMin, listMax]
    calc xs.foldl min x ≤ x := foldl_min_le_init xs x
    _ ≤ xs.foldl max x := init_le_foldl_max xs x

lemma confRank_confidenceOf_mono (p1 t1 p2 t2 : ℕ) (hp : p2 ≤ p1) (ht : t2 ≤ t1) :
    confRank (confidenceOf p2 t2).1 ≤ confRank (confidenceOf p1 t1).1 := by
  unfold confidenceOf
  split_ifs <;> first
    | decide
    | (exfalso; omega)

/-! ## Claim theorems -/

/-- C7: the knowledge-base confidence is computed locally from the crawl data
(pages_successful and total truthy raw-content characters) and not from the
model output: ≥5 pages and >10000 chars gives HIGH/0.85, else ≥3 pages and
>5000 chars gives MEDIUM/0.65, else LOW/0.4; replacing the GPT-produced
knowledge base by any other leaves the confidence unchanged. -/
theorem confidence_thresholds_local (kb kb2 : KnowledgeBase) (crawl : CrawlResult) :
    ((validate_and_score kb crawl).metadata.overall_confidence,
      (validate_and_score kb crawl).metadata.confidence_score) =
      (if 5 ≤ crawl.metadata.pages_successful ∧ 10000 < totalContentChars crawl then
        ("HIGH", (0.85 : ℚ))
      else if 3 ≤ crawl.metadata.pages_successful ∧ 5000 < totalContentChars crawl then
        ("MEDIUM", (0.65 : ℚ))
      else ("LOW", (0.4 : ℚ))) ∧
    (validate_and_score kb2 crawl).metadata.overall_confidence =
      (validate_and_score kb crawl).metadata.overall_confidence ∧
    (validate_and_score kb2 crawl).metadata.confidence_score =
      (validate_and_score kb crawl).metadata.confidence_score :=
  ⟨rfl, rfl, rfl⟩

/-- C8: the confidence label is monotone: a crawl with strictly more
successful pages and strictly more total content characters never receives a
lower label under LOW < MEDIUM < HIGH. -/
theorem confidence_monotone (kb1 kb2 : KnowledgeBase) (c1 c2 : CrawlResult)
    (hp : c2.metadata.pages_successful < c1.metadata.pages_successful)
    (ht : totalContentChars c2 < totalContentChars c1) :
    confRank ((validate_and_score kb2 c2).metadata.overall_confidence) ≤
      confRank ((validate_and_score kb1 c1).metadata.overall_confidence) := by
  have h2 : (validate_and_score kb2 c2).metadata.overall_confidence =
      (confidenceOf c2.metadata.pages_successful (totalContentChars c2)).1 := rfl
  have h1 : (validate_and_score kb1 c1).metadata.overall_confidence =
      (confidenceOf c1.metadata.pages_successful (totalContentChars c1)).1 := rfl
  rw [h1, h2]
  exact confRank_confidenceOf_mono _ _ _ _ (Nat.le_of_lt hp) (Nat.le_of_lt ht)

/-- C8 witness: `crawlBig` (1 page, 7 chars) strictly dominates `crawlSmall`
(0 pages, 0 chars) and its label rank is no lower. -/
theorem confidence_monotone_witness :
    crawlSmall.metadata.pages_successful < crawlBig.metadata.pages_successful ∧
    totalContentChars crawlSmall < totalContentChars crawlBig ∧
    confRank ((validate_and_score kbLorem crawlSmall).metadata.overall_confidence) ≤
      confRank ((validate_and_score kbAcme crawlBig).metadata.overall_confidence) :=
  ⟨by decide, by decide, confidence_monotone kbAcme kbLorem crawlBig crawlSmall
    (by decide) (by decide)⟩

/-- C3 counterexample: a GPT reply whose fields contain "please describe" and
"lorem ipsum" and whose total word count is 6 is nevertheless accepted
verbatim by `refine_and_create_kb` (source "gpt_refined", knowledge base kept
unchanged); no fallback happens, so the claimed validation gate does not
exist. -/
theorem no_placeholder_gate_counterexample :
    specKbHasPlaceholder kbLorem = true ∧
    refine_and_create_kb true (.ok kbLorem) exampleCrawl ≠ create_fallback_kb exampleCrawl ∧
    (refine_and_create_kb true (.ok kbLorem) exampleCrawl).knowledge_base = kbLorem ∧
    (refine_and_create_kb true (.ok kbLorem) exampleCrawl).metadata.source = "gpt_refined" := by
  refine ⟨by decide, ?_, rfl, rfl⟩
  intro h
  have hs := congrArg (fun r => r.metadata.source) h
  simp only at hs
  have : "gpt_refined" = "fallback" := hs
  exact absurd this (by decide)

/-- C3 amended: `refine_and_create_kb` performs no placeholder or word-count
validation: every successfully parsed GPT knowledge base is accepted verbatim
and packaged with source "gpt_refined"; the fallback knowledge base is
returned exactly when no OpenAI client is configured or the GPT call / JSON
parse raises. -/
theorem refiner_has_no_validation_gate (crawl : CrawlResult) (kb : KnowledgeBase)
    (e : String) (g : GptOutcome) :
    refine_and_create_kb true (.ok kb) crawl = validate_and_score kb crawl ∧
    (refine_and_create_kb true (.ok kb) crawl).knowledge_base = kb ∧
    (refine_and_create_kb true (.ok kb) crawl).metadata.source = "gpt_refined" ∧
    refine_and_create_kb true (.failure e) crawl = create_fallback_kb crawl ∧
    refine_and_create_kb false g crawl = create_fallback_kb crawl :=
  ⟨rfl, rfl, rfl, rfl, rfl⟩

/-- C2 counterexample: on the real failed crawl of example.com (1 attempted /
0 successful pages, `title` key present with value "") the fallback knowledge
base has confidence score 0.2 — not 0.4 — its company name is "" — not
"Example" — and the `run_llm_tests=False` overall score is
`int(0.2*60) = 12`, not 24. -/
theorem fallback_kb_counterexample :
    (create_fallback_kb exampleCrawl).metadata.confidence_score = 0.2 ∧
    (create_fallback_kb exampleCrawl).metadata.confidence_score ≠ 0.4 ∧
    (create_fallback_kb exampleCrawl).knowledge_base.company_overview.name = "" ∧
    (create_fallback_kb exampleCrawl).knowledge_base.company_overview.name ≠ "Example" ∧
    basicOverallScore (create_fallback_kb exampleCrawl) = 12 ∧
    basicOverallScore (create_fallback_kb exampleCrawl) ≠ 24 := by
  have hscore : basicOverallScore (create_fallback_kb exampleCrawl) = pyInt ((0.2 : ℚ) * 60) :=
    rfl
  have h12 : pyInt ((0.2 : ℚ) * 60) = 12 :=
    pyInt_eq_of _ 12 (by norm_num) (by norm_num) (by norm_num)
  refine ⟨rfl, ?_, rfl, by decide, hscore.trans h12, ?_⟩
  · intro h
    have : (0.2 : ℚ) = 0.4 := h
    norm_num at this
  · rw [hscore, h12]
    decide

/-- C2 amended: with no OpenAI client or a failed LLM call the refiner
returns the fallback knowledge base, whose confidence label is LOW with
confidence score 0.2 (so a `run_llm_tests=False` orchestrator run yields
`overallScore = int(0.2*60) = 12`); its company name is the crawler-extracted
title whenever the `title` key is present (the empty string after a fully
failed crawl) and is derived from the domain (`example.com` → "Example") only
when that key is absent. -/
theorem fallback_kb_properties (crawl : CrawlResult) (e : String) (g : GptOutcome) :
    refine_and_create_kb false g crawl = create_fallback_kb crawl ∧
    refine_and_create_kb true (.failure e) crawl = create_fallback_kb crawl ∧
    (create_fallback_kb crawl).metadata.overall_confidence = "LOW" ∧
    (create_fallback_kb crawl).metadata.confidence_score = 0.2 ∧
    (crawl.extracted_data.title = none →
      (create_fallback_kb crawl).knowledge_base.company_overview.name =
        pyCapitalize ((pySplitDot crawl.metadata.domain).headD "")) ∧
    (∀ t, crawl.extracted_data.title = some t →
      (create_fallback_kb crawl).knowledge_base.company_overview.name = t) ∧
    basicOverallScore (create_fallback_kb crawl) = 12 := by
  refine ⟨rfl, rfl, rfl, rfl, ?_, ?_, ?_⟩
  · intro h
    simp only [create_fallback_kb, h, Option.getD_none]
  · intro t h
    simp only [create_fallback_kb, h, Option.getD_some]
  · have hscore : basicOverallScore (create_fallback_kb crawl) = pyInt ((0.2 : ℚ) * 60) := rfl
    rw [hscore]
    exact pyInt_eq_of _ 12 (by norm_num) (by norm_num) (by norm_num)

/-- C2 witness: the amended statement applied to the failed example.com
crawl, whose `title` key is present with value "", and to a crawl with the
`title` key absent, where the name comes from the domain. -/
theorem fallback_kb_properties_witness :
    (create_fallback_kb exampleCrawl).knowledge_base.company_overview.name = "" ∧
    (create_fallback_kb
      { exampleCrawl with
        extracted_data := { exampleCrawl.extracted_data with title := none } }
      ).knowledge_base.company_overview.name = "Example" ∧
    basicOverallScore (create_fallback_kb exampleCrawl) = 12 := by
  refine ⟨(fallback_kb_properties exampleCrawl "err" (.failure "err")).2.2.2.2.2.1 "" rfl,
    ?_, (fallback_kb_properties exampleCrawl "err" (.failure "err")).2.2.2.2.2.2⟩
  have h := (fallback_kb_properties
    { exampleCrawl with
      extracted_data := { exampleCrawl.extracted_data with title := none } }
    "err" (.failure "err")).2.2.2.2.1 rfl
  rw [h]
  decide

/-- C4 counterexample: with no provider key configured at all,
`test_all_llms` marks every provider unavailable (`available = false`, no
simulated score) instead of returning the hardcoded demo scores — the demo
dict (ChatGPT score 65, mention rate 0.4, ...) is produced only on the
only-OpenAI simulation path when the simulation call fails, and such an entry
is `available = true` with a simulated score. -/
theorem no_keys_demo_counterexample :
    ((test_all_llms noKeys errOracle errOracle errOracle errOracle (.error "no call") []
        (create_fallback_kb exampleCrawl)).platforms.lookup "chatgpt").map
      PlatformData.available = some false ∧
    ((test_all_llms noKeys errOracle errOracle errOracle errOracle (.error "no call") []
        (create_fallback_kb exampleCrawl)).platforms.lookup "chatgpt").bind
      PlatformData.simulated_score = none ∧
    ((simulate_all_platforms (.error "sim failed") []).lookup "chatgpt").map
      PlatformData.available = some true ∧
    ((simulate_all_platforms (.error "sim failed") []).lookup "chatgpt").bind
      PlatformData.simulated_score = some 65 ∧
    (test_all_llms noKeys errOracle errOracle errOracle errOracle (.error "no call") []
        (create_fallback_kb exampleCrawl)).platforms.lookup "chatgpt" ≠
      (simulate_all_platforms (.error "sim failed") []).lookup "chatgpt" := by
  refine ⟨rfl, rfl, rfl, rfl, ?_⟩
  intro h
  have ha := congrArg (fun o => o.map PlatformData.available) h
  have : some false = some true := ha
  exact absurd this (by decide)

/-- C4 amended: with no provider API key at all configured, `test_all_llms`
returns for each of the four providers the unavailable result (available =
false, a reason naming the missing key variable, zero questions/mentions, an
empty results list) — a complete well-shaped value rather than raising or
returning empty results; hardcoded demo scores arise only on the only-OpenAI
simulation path when the simulation call fails. -/
theorem no_keys_returns_unavailable (oO oA oG oP : Nat → Except String String)
    (sim : Except String SimData) (questions : List Question) (kbr : KBResult) :
    (test_all_llms noKeys oO oA oG oP sim questions kbr).platforms =
      [("chatgpt", create_unavailable_result "ChatGPT" "OPENAI_API_KEY not set"),
       ("claude", create_unavailable_result "Claude" "ANTHROPIC_API_KEY not set"),
       ("gemini", create_unavailable_result "Gemini" "GEMINI_API_KEY not set"),
       ("perplexity", create_unavailable_result "Perplexity" "PERPLEXITY_API_KEY not set")] ∧
    (∀ p ∈ (test_all_llms noKeys oO oA oG oP sim questions kbr).platforms,
      p.2.available = false ∧ p.2.results = [] ∧ p.2.questions_tested = 0 ∧
        p.2.mention_count = 0 ∧ p.2.mention_rate = 0) ∧
    (∀ e, ((simulate_all_platforms (.error e) questions).lookup "chatgpt").bind
      PlatformData.simulated_score = some 65) := by
  refine ⟨rfl, ?_, fun e => rfl⟩
  intro p hp
  have hplat : (test_all_llms noKeys oO oA oG oP sim questions kbr).platforms =
      [("chatgpt", create_unavailable_result "ChatGPT" "OPENAI_API_KEY not set"),
       ("claude", create_unavailable_result "Claude" "ANTHROPIC_API_KEY not set"),
       ("gemini", create_unavailable_result "Gemini" "GEMINI_API_KEY not set"),
       ("perplexity", create_unavailable_result "Perplexity" "PERPLEXITY_API_KEY not set")] :=
    rfl
  rw [hplat] at hp
  simp only [List.mem_cons] at hp
  rcases hp with h | h | h | h | h
  · subst h; exact ⟨rfl, rfl, rfl, rfl, rfl⟩
  · subst h; exact ⟨rfl, rfl, rfl, rfl, rfl⟩
  · subst h; exact ⟨rfl, rfl, rfl, rfl, rfl⟩
  · subst h; exact ⟨rfl, rfl, rfl, rfl, rfl⟩
  · exact absurd h (List.not_mem_nil p)

/-- C4 witness: the amended statement applied to a concrete no-key run: the
chatgpt entry is a member of the returned platforms and is unavailable with
zero counts; the demo chatgpt score on the failed-simulation path is 65. -/
theorem no_keys_returns_unavailable_witness :
    (("chatgpt", create_unavailable_result "ChatGPT" "OPENAI_API_KEY not set") ∈
      (test_all_llms noKeys errOracle errOracle errOracle errOracle (.error "x") []
        (create_fallback_kb exampleCrawl)).platforms) ∧
    (create_unavailable_result "ChatGPT" "OPENAI_API_KEY not set").available = false ∧
    (create_unavailable_result "ChatGPT" "OPENAI_API_KEY not set").mention_count = 0 ∧
    ((simulate_all_platforms (.error "x") []).lookup "chatgpt").bind
      PlatformData.simulated_score = some 65 := by
  have h := no_keys_returns_unavailable errOracle errOracle errOracle errOracle (.error "x") []
    (create_fallback_kb exampleCrawl)
  have hmem : ("chatgpt", create_unavailable_result "ChatGPT" "OPENAI_API_KEY not set") ∈
      (test_all_llms noKeys errOracle errOracle errOracle errOracle (.error "x") []
        (create_fallback_kb exampleCrawl)).platforms := by
    rw [h.1]
    exact List.mem_cons_self _ _
  have hprops := h.2.1 _ hmem
  exact ⟨hmem, hprops.1, hprops.2.2.2.1, h.2.2 "x"⟩

/-- C10 helper: the invariants of the shared provider-test loop. -/
lemma mkPlatformResult_invariants (platform model : String)
    (oracle : Nat → Except String String) (questions : List Question)
    (company_name : String) (kb : KnowledgeBase) :
    (mkPlatformResult platform model oracle questions company_name kb).questions_tested =
      (mkPlatformResult platform model oracle questions company_name kb).results.length ∧
    (mkPlatformResult platform model oracle questions company_name kb).questions_tested =
      min 5 questions.length ∧
    (mkPlatformResult platform model oracle questions company_name kb).questions_tested ≤ 5 ∧
    0 ≤ (mkPlatformResult platform model oracle questions company_name kb).mention_count ∧
    (mkPlatformResult platform model oracle questions company_name kb).mention_count ≤
      ((mkPlatformResult platform model oracle questions company_name kb).questions_tested : ℤ) ∧
    (mkPlatformResult platform model oracle questions company_name kb).mention_rate =
      (if 0 < (mkPlatformResult platform model oracle questions company_name kb).questions_tested
       then ((mkPlatformResult platform model oracle questions company_name kb).mention_count : ℚ) /
         ((mkPlatformResult platform model oracle questions company_name kb).questions_tested : ℚ)
       else 0) := by
  have hlen : (testLoopResults oracle company_name kb questions).length =
      min 5 questions.length := by
    simp [testLoopResults]
  have hcount : (testLoopResults oracle company_name kb questions).countP qresultMentioned ≤
      (testLoopResults oracle company_name kb questions).length :=
    List.countP_le_length _
  have hq : (mkPlatformResult platform model oracle questions company_name kb).questions_tested
      = (testLoopResults oracle company_name kb questions).length := rfl
  have hc : (mkPlatformResult platform model oracle questions company_name kb).mention_count
      = ((testLoopResults oracle company_name kb questions).countP qresultMentioned : ℤ) := rfl
  refine ⟨rfl, hlen, ?_, Int.natCast_nonneg _, ?_, ?_⟩
  · rw [hq, hlen]
    exact Nat.min_le_left 5 _
  · rw [hq, hc]
    exact_mod_cast hcount
  · show (if (testLoopResults oracle company_name kb questions).isEmpty then (0 : ℚ)
        else ((testLoopResults oracle company_name kb questions).countP qresultMentioned : ℚ) /
          ((testLoopResults oracle company_name kb questions).length : ℚ)) = _
    rw [hq, hc]
    cases hr : testLoopResults oracle company_name kb questions with
    | nil => simp
    | cons x xs =>
      simp only [List.isEmpty_cons, Bool.false_eq_true, if_false, List.length_cons,
        Nat.zero_lt_succ, if_true]
      push_cast
      rfl

/-- C10: every per-platform result produced by the real test paths
`_test_openai`, `_test_anthropic`, `_test_gemini`, `_test_perplexity`
satisfies: `questions_tested` equals the number of per-question result
entries and is at most 5 (it is `min 5 len(questions)`, errored calls
included), `0 ≤ mention_count ≤ questions_tested`, and `mention_rate =
mention_count / questions_tested` when `questions_tested > 0`, else 0. -/
theorem tester_result_invariants (oracle : Nat → Except String String)
    (questions : List Question) (company_name : String) (kb : KnowledgeBase) :
    let P : PlatformData → Prop := fun pd =>
      pd.questions_tested = pd.results.length ∧
      pd.questions_tested = min 5 questions.length ∧
      pd.questions_tested ≤ 5 ∧
      0 ≤ pd.mention_count ∧
      pd.mention_count ≤ (pd.questions_tested : ℤ) ∧
      pd.mention_rate =
        (if 0 < pd.questions_tested then (pd.mention_count : ℚ) / (pd.questions_tested : ℚ)
         else 0)
    P (test_openai oracle questions company_name kb) ∧
    P (test_anthropic oracle questions company_name kb) ∧
    P (test_gemini oracle questions company_name kb) ∧
    P (test_perplexity oracle questions company_name kb) :=
  ⟨mkPlatformResult_invariants _ _ oracle questions company_name kb,
   mkPlatformResult_invariants _ _ oracle questions company_name kb,
   mkPlatformResult_invariants _ _ oracle questions company_name kb,
   mkPlatformResult_invariants _ _ oracle questions company_name kb⟩

lemma accuracy_bounds (llm : LLMResults) :
    0 ≤ (calculate_accuracy llm).score ∧ (calculate_accuracy llm).score ≤ 100 := by
  simp only [calculate_accuracy]
  by_cases h : (analyzedAnalyses llm.platforms).length = 0
  · rw [if_pos (beq_iff_eq.mpr h)]
    exact ⟨le_rfl, by norm_num⟩
  · rw [if_neg (by simp only [beq_iff_eq]; exact h)]
    have ht : (0 : ℚ) < ((analyzedAnalyses llm.platforms).length : ℚ) := by
      exact_mod_cast Nat.pos_of_ne_zero h
    have ha : (((analyzedAnalyses llm.platforms).countP
        (fun a => a.mentioned && (a.hallucination_risk == "low"))) : ℚ) ≤
        ((analyzedAnalyses llm.platforms).length : ℚ) := by
      exact_mod_cast List.countP_le_length _
    have hnn : (0 : ℚ) ≤ (((analyzedAnalyses llm.platforms).countP
        (fun a => a.mentioned && (a.hallucination_risk == "low"))) : ℚ) /
        ((analyzedAnalyses llm.platforms).length : ℚ) * 100 := by positivity
    refine ⟨pyInt_nonneg _ hnn, pyInt_le_hundred _ hnn ?_⟩
    have hdiv : (((analyzedAnalyses llm.platforms).countP
        (fun a => a.mentioned && (a.hallucination_risk == "low"))) : ℚ) /
        ((analyzedAnalyses llm.platforms).length : ℚ) ≤ 1 :=
      (div_le_one ht).mpr ha
    nlinarith [hdiv]

lemma consistency_bounds (llm : LLMResults)
    (h0 : 0 ≤ llm.summary.overall_mention_rate)
    (h1 : llm.summary.overall_mention_rate ≤ 1) :
    0 ≤ (calculate_consistency llm).score ∧ (calculate_consistency llm).score ≤ 100 := by
  simp only [calculate_consistency]
  have hnn : (0 : ℚ) ≤ llm.summary.overall_mention_rate * 100 := by positivity
  have hs0 : 0 ≤ pyInt (llm.summary.overall_mention_rate * 100) := pyInt_nonneg _ hnn
  have hs100 : pyInt (llm.summary.overall_mention_rate * 100) ≤ 100 :=
    pyInt_le_hundred _ hnn (by nlinarith)
  by_cases h : (platformRates llm).isEmpty
  · rw [if_pos h]
    exact ⟨hs0, hs100⟩
  · rw [if_neg h]
    have hne : platformRates llm ≠ [] := by
      simpa only [List.isEmpty_iff] using h
    have hvar : 0 ≤ listMax ((platformRates llm).map Prod.snd) -
        listMin ((platformRates llm).map Prod.snd) := by
      have := listMin_le_listMax ((platformRates llm).map Prod.snd)
        (by simpa only [ne_eq, List.map_eq_nil_iff] using hne)
      linarith
    have hpen : 0 ≤ pyInt ((listMax ((platformRates llm).map Prod.snd) -
        listMin ((platformRates llm).map Prod.snd)) * 20) :=
      pyInt_nonneg _ (by nlinarith)
    constructor
    · exact le_max_left 0 _
    · omega

lemma safety_bounds (llm : LLMResults) :
    0 ≤ (calculate_safety llm).score ∧ (calculate_safety llm).score ≤ 100 := by
  simp only [calculate_safety]
  by_cases h : ((analyzedAnalyses llm.platforms).filter ResponseAnalysis.mentioned).length = 0
  · rw [if_pos (beq_iff_eq.mpr h)]
    exact ⟨by norm_num, by norm_num⟩
  · rw [if_neg (by simp only [beq_iff_eq]; exact h)]
    exact pyClamp_bounds _

lemma readability_bounds (llm : LLMResults) :
    0 ≤ (calculate_readability llm).score ∧ (calculate_readability llm).score ≤ 100 := by
  simp only [calculate_readability]
  by_cases h : (analyzedAnalyses llm.platforms).length = 0
  · rw [if_pos (beq_iff_eq.mpr h)]
    exact ⟨by norm_num, by norm_num⟩
  · rw [if_neg (by simp only [beq_iff_eq]; exact h)]
    constructor
    · refine le_min (by norm_num) ?_
      split_ifs <;> norm_num
    · exact min_le_left _ _

/-- C1 counterexample: the unrestricted claim is false of the code.  On the
reachable only-OpenAI simulated path, `_simulate_all_platforms` passes the
model-supplied `mention_rate` through with no range check; with all four
simulated rates equal to 40, `test_all_llms` reports an overall mention rate
of 40, `calculate_scores` then assigns the consistency dimension a score of
4000 (violating 0 ≤ score ≤ 100) and an overall score of
`int(0·0.30 + 4000·0.35 + 50·0.20 + 50·0.15) = 1417`, which differs from the
claimed clamped value (the clamp would give 100): `_calculate_overall`
applies no clamp and `_calculate_consistency` only floors at 0. -/
theorem score_report_counterexample :
    llm40.summary.overall_mention_rate = 40 ∧
    (calculate_scores (create_fallback_kb exampleCrawl) llm40
      15).dimension_scores.consistency.score = 4000 ∧
    ¬((calculate_scores (create_fallback_kb exampleCrawl) llm40
      15).dimension_scores.consistency.score ≤ 100) ∧
    (calculate_scores (create_fallback_kb exampleCrawl) llm40 15).overall_score.score = 1417 ∧
    (calculate_scores (create_fallback_kb exampleCrawl) llm40 15).overall_score.score ≠
      pyClamp (pyInt
        (((calculate_scores (create_fallback_kb exampleCrawl) llm40
            15).dimension_scores.accuracy.score : ℚ) * weight_accuracy +
          ((calculate_scores (create_fallback_kb exampleCrawl) llm40
            15).dimension_scores.consistency.score : ℚ) * weight_consistency +
          ((calculate_scores (create_fallback_kb exampleCrawl) llm40
            15).dimension_scores.safety.score : ℚ) * weight_safety +
          ((calculate_scores (create_fallback_kb exampleCrawl) llm40
            15).dimension_scores.readability.score : ℚ) * weight_readability)) := by
  have hpy200 : pyInt ((40 : ℚ) * ((5 : ℕ) : ℚ)) = 200 := by
    push_cast
    exact pyInt_eq_of _ 200 (by norm_num) (by norm_num) (by norm_num)
  have hover : llm40.summary.overall_mention_rate =
      ((pyInt ((40 : ℚ) * ((5 : ℕ) : ℚ)) + (pyInt ((40 : ℚ) * ((5 : ℕ) : ℚ)) +
        (pyInt ((40 : ℚ) * ((5 : ℕ) : ℚ)) + (pyInt ((40 : ℚ) * ((5 : ℕ) : ℚ)) + 0))) : ℤ) : ℚ) /
      ((20 : ℕ) : ℚ) := rfl
  have hrate40 : llm40.summary.overall_mention_rate = 40 := by
    rw [hover, hpy200]
    push_cast
    norm_num
  have hcons : (calculate_consistency llm40).score = 4000 := by
    have hrates : (platformRates llm40).map Prod.snd = [(40 : ℚ), 40, 40, 40] := rfl
    have hne : (platformRates llm40).isEmpty = false := rfl
    simp only [calculate_consistency]
    rw [hrates, hrate40, hne]
    rw [if_neg (by decide : ¬(false = true))]
    have hmax : listMax [(40 : ℚ), 40, 40, 40] = 40 := by simp [listMax]
    have hmin : listMin [(40 : ℚ), 40, 40, 40] = 40 := by simp [listMin]
    rw [hmax, hmin, sub_self, zero_mul, pyInt_zero]
    have h4000 : pyInt ((40 : ℚ) * 100) = 4000 :=
      pyInt_eq_of _ 4000 (by norm_num) (by norm_num) (by norm_num)
    rw [h4000]
    decide
  have hacc : (calculate_accuracy llm40).score = 0 := rfl
  have hsaf : (calculate_safety llm40).score = 50 := rfl
  have hread : (calculate_readability llm40).score = 50 := rfl
  have hdc : (calculate_scores (create_fallback_kb exampleCrawl) llm40
      15).dimension_scores.consistency.score = (calculate_consistency llm40).score := rfl
  have hov : (calculate_scores (create_fallback_kb exampleCrawl) llm40
      15).overall_score.score =
      pyInt (((calculate_accuracy llm40).score : ℚ) * weight_accuracy +
        ((calculate_consistency llm40).score : ℚ) * weight_consistency +
        ((calculate_safety llm40).score : ℚ) * weight_safety +
        ((calculate_readability llm40).score : ℚ) * weight_readability) := rfl
  have hovval : (calculate_scores (create_fallback_kb exampleCrawl) llm40
      15).overall_score.score = 1417 := by
    rw [hov, hacc, hcons, hsaf, hread]
    simp only [weight_accuracy, weight_consistency, weight_safety, weight_readability]
    push_cast
    exact pyInt_eq_of _ 1417 (by norm_num) (by norm_num) (by norm_num)
  refine ⟨hrate40, by rw [hdc]; exact hcons, ?_, hovval, ?_⟩
  · rw [hdc, hcons]
    decide
  · have hinner : pyInt
        (((calculate_scores (create_fallback_kb exampleCrawl) llm40
            15).dimension_scores.accuracy.score : ℚ) * weight_accuracy +
          ((calculate_scores (create_fallback_kb exampleCrawl) llm40
            15).dimension_scores.consistency.score : ℚ) * weight_consistency +
          ((calculate_scores (create_fallback_kb exampleCrawl) llm40
            15).dimension_scores.safety.score : ℚ) * weight_safety +
          ((calculate_scores (create_fallback_kb exampleCrawl) llm40
            15).dimension_scores.readability.score : ℚ) * weight_readability) = 1417 := by
      have he : (calculate_scores (create_fallback_kb exampleCrawl) llm40
          15).dimension_scores.accuracy.score = (calculate_accuracy llm40).score := rfl
      have he2 : (calculate_scores (create_fallback_kb exampleCrawl) llm40
          15).dimension_scores.safety.score = (calculate_safety llm40).score := rfl
      have he3 : (calculate_scores (create_fallback_kb exampleCrawl) llm40
          15).dimension_scores.readability.score = (calculate_readability llm40).score := rfl
      rw [he, he2, he3, hdc, hacc, hcons, hsaf, hread]
      simp only [weight_accuracy, weight_consistency, weight_safety, weight_readability]
      push_cast
      exact pyInt_eq_of _ 1417 (by norm_num) (by norm_num) (by norm_num)
    rw [hovval, hinner]
    decide

/-- C1 amended: in every report produced by `calculate_scores` from
llm_results whose summary mention rate is a genuine rate in [0,1] — which
holds on every real (non-simulated) tester path, but can fail on the
only-OpenAI simulated path, where the model-supplied mention_rate is used
unvalidated — each of the four dimension scores lies in [0,100], and the
overall score is the 0.30/0.35/0.20/0.15-weighted sum of the four dimension
scores converted to an integer by Python `int()` and clamped to [0,100] (the
clamp is the identity here because the weighted sum of in-range scores is
already in range). -/
theorem score_report_bounds (kb : KBResult) (llm : LLMResults) (qt : Nat)
    (h0 : 0 ≤ llm.summary.overall_mention_rate)
    (h1 : llm.summary.overall_mention_rate ≤ 1) :
    (0 ≤ (calculate_scores kb llm qt).dimension_scores.accuracy.score ∧
      (calculate_scores kb llm qt).dimension_scores.accuracy.score ≤ 100) ∧
    (0 ≤ (calculate_scores kb llm qt).dimension_scores.consistency.score ∧
      (calculate_scores kb llm qt).dimension_scores.consistency.score ≤ 100) ∧
    (0 ≤ (calculate_scores kb llm qt).dimension_scores.safety.score ∧
      (calculate_scores kb llm qt).dimension_scores.safety.score ≤ 100) ∧
    (0 ≤ (calculate_scores kb llm qt).dimension_scores.readability.score ∧
      (calculate_scores kb llm qt).dimension_scores.readability.score ≤ 100) ∧
    (calculate_scores kb llm qt).overall_score.score =
      pyClamp (pyInt
        (((calculate_scores kb llm qt).dimension_scores.accuracy.score : ℚ) * weight_accuracy +
         ((calculate_scores kb llm qt).dimension_scores.consistency.score : ℚ) *
           weight_consistency +
         ((calculate_scores kb llm qt).dimension_scores.safety.score : ℚ) * weight_safety +
         ((calculate_scores kb llm qt).dimension_scores.readability.score : ℚ) *
           weight_readability)) := by
  have hA := accuracy_bounds llm
  have hC := consistency_bounds llm h0 h1
  have hS := safety_bounds llm
  have hR := readability_bounds llm
  have hdA : (calculate_scores kb llm qt).dimension_scores.accuracy = calculate_accuracy llm :=
    rfl
  have hdC : (calculate_scores kb llm qt).dimension_scores.consistency =
      calculate_consistency llm := rfl
  have hdS : (calculate_scores kb llm qt).dimension_scores.safety = calculate_safety llm := rfl
  have hdR : (calculate_scores kb llm qt).dimension_scores.readability =
      calculate_readability llm := rfl
  refine ⟨by rw [hdA]; exact hA, by rw [hdC]; exact hC, by rw [hdS]; exact hS,
    by rw [hdR]; exact hR, ?_⟩
  have hov : (calculate_scores kb llm qt).overall_score.score =
      pyInt
        (((calculate_scores kb llm qt).dimension_scores.accuracy.score : ℚ) * weight_accuracy +
         ((calculate_scores kb llm qt).dimension_scores.consistency.score : ℚ) *
           weight_consistency +
         ((calculate_scores kb llm qt).dimension_scores.safety.score : ℚ) * weight_safety +
         ((calculate_scores kb llm qt).dimension_scores.readability.score : ℚ) *
           weight_readability) := rfl
  rw [hov, hdA, hdC, hdS, hdR]
  have ha0 : (0 : ℚ) ≤ ((calculate_accuracy llm).score : ℚ) := by exact_mod_cast hA.1
  have ha1 : ((calculate_accuracy llm).score : ℚ) ≤ 100 := by exact_mod_cast hA.2
  have hc0 : (0 : ℚ) ≤ ((calculate_consistency llm).score : ℚ) := by exact_mod_cast hC.1
  have hc1 : ((calculate_consistency llm).score : ℚ) ≤ 100 := by exact_mod_cast hC.2
  have hs0 : (0 : ℚ) ≤ ((calculate_safety llm).score : ℚ) := by exact_mod_cast hS.1
  have hs1 : ((calculate_safety llm).score : ℚ) ≤ 100 := by exact_mod_cast hS.2
  have hr0 : (0 : ℚ) ≤ ((calculate_readability llm).score : ℚ) := by exact_mod_cast hR.1
  have hr1 : ((calculate_readability llm).score : ℚ) ≤ 100 := by exact_mod_cast hR.2
  have hw0 : (0 : ℚ) ≤ ((calculate_accuracy llm).score : ℚ) * weight_accuracy +
      ((calculate_consistency llm).score : ℚ) * weight_consistency +
      ((calculate_safety llm).score : ℚ) * weight_safety +
      ((calculate_readability llm).score : ℚ) * weight_readability := by
    simp only [weight_accuracy, weight_consistency, weight_safety, weight_readability]
    nlinarith
  have hw1 : ((calculate_accuracy llm).score : ℚ) * weight_accuracy +
      ((calculate_consistency llm).score : ℚ) * weight_consistency +
      ((calculate_safety llm).score : ℚ) * weight_safety +
      ((calculate_readability llm).score : ℚ) * weight_readability ≤ 100 := by
    simp only [weight_accuracy, weight_consistency, weight_safety, weight_readability]
    nlinarith
  exact (pyClamp_eq_self _ (pyInt_nonneg _ hw0) (pyInt_le_hundred _ hw0 hw1)).symm

/-- C1 witness: the bounds instantiated on a concrete run with no platform
data (summary rate 0), over the fallback knowledge base. -/
theorem score_report_bounds_witness :
    0 ≤ llmEmpty.summary.overall_mention_rate ∧
    llmEmpty.summary.overall_mention_rate ≤ 1 ∧
    (0 ≤ (calculate_scores (create_fallback_kb exampleCrawl) llmEmpty 0).overall_score.score ∧
      (calculate_scores (create_fallback_kb exampleCrawl) llmEmpty 0).overall_score.score =
        pyClamp (pyInt
          (((calculate_scores (create_fallback_kb exampleCrawl) llmEmpty
              0).dimension_scores.accuracy.score : ℚ) * weight_accuracy +
            ((calculate_scores (create_fallback_kb exampleCrawl) llmEmpty
              0).dimension_scores.consistency.score : ℚ) * weight_consistency +
            ((calculate_scores (create_fallback_kb exampleCrawl) llmEmpty
              0).dimension_scores.safety.score : ℚ) * weight_safety +
            ((calculate_scores (create_fallback_kb exampleCrawl) llmEmpty
              0).dimension_scores.readability.score : ℚ) * weight_readability))) := by
  have h0 : 0 ≤ llmEmpty.summary.overall_mention_rate := by
    rw [show llmEmpty.summary.overall_mention_rate = (0 : ℚ) from rfl]
  have h1 : llmEmpty.summary.overall_mention_rate ≤ 1 := by
    rw [show llmEmpty.summary.overall_mention_rate = (0 : ℚ) from rfl]
    norm_num
  have h := score_report_bounds (create_fallback_kb exampleCrawl) llmEmpty 0 h0 h1
  have hov := h.2.2.2.2
  refine ⟨h0, h1, ?_, hov⟩
  rw [hov]
  exact (pyClamp_bounds _).1

/-- C5: the accuracy dimension score is `int(accurate/total * 100)` where
`accurate` counts non-error analyzed responses whose analysis flags a mention
with low hallucination risk and `total` counts all non-error analyzed
responses of available platforms; the accurate / at-risk / total counts are
attached in the details; and a sentinel score-0 / grade-"N/A" result is
returned when zero responses were analyzable. -/
theorem accuracy_score_formula (llm_results : LLMResults) :
    ((analyzedAnalyses llm_results.platforms).length = 0 →
      calculate_accuracy llm_results =
        { score := 0, grade := "N/A", reason := "No LLM responses to analyze"
          details := .empty }) ∧
    (0 < (analyzedAnalyses llm_results.platforms).length →
      (calculate_accuracy llm_results).score =
        pyInt (((analyzedAnalyses llm_results.platforms).countP
            (fun a => a.mentioned && (a.hallucination_risk == "low")) : ℚ) /
          ((analyzedAnalyses llm_results.platforms).length : ℚ) * 100) ∧
      (calculate_accuracy llm_results).grade =
        score_to_grade (pyInt (((analyzedAnalyses llm_results.platforms).countP
            (fun a => a.mentioned && (a.hallucination_risk == "low")) : ℚ) /
          ((analyzedAnalyses llm_results.platforms).length : ℚ) * 100)) ∧
      (calculate_accuracy llm_results).details =
        ScoreDetails.accuracy
          ((analyzedAnalyses llm_results.platforms).countP
            (fun a => a.mentioned && (a.hallucination_risk == "low")))
          ((analyzedAnalyses llm_results.platforms).countP
            (fun a => a.mentioned && !(a.hallucination_risk == "low")))
          ((analyzedAnalyses llm_results.platforms).length)) := by
  constructor
  · intro h
    simp only [calculate_accuracy]
    rw [if_pos (beq_iff_eq.mpr h)]
  · intro h
    simp only [calculate_accuracy]
    rw [if_neg (by simp only [beq_iff_eq]; omega)]
    exact ⟨rfl, rfl, rfl⟩

/-- C5 witness: the formula applied to the one-provider scenario run, in
which 5 responses are analyzable and 2 are accurate mentions. -/
theorem accuracy_score_formula_witness :
    0 < (analyzedAnalyses llmScenario.platforms).length ∧
    (calculate_accuracy llmScenario).details = ScoreDetails.accuracy 2 0 5 := by
  have h := (accuracy_score_formula llmScenario).2 (by decide)
  exact ⟨by decide, h.2.2⟩

/-- C6: the consistency dimension score is the overall mention rate × 100
minus `int(20 × (max per-platform rate − min per-platform rate))`, floored at
0 (whenever at least one platform is available); and in the one-provider
scenario with 5 questions of which 2 responses contain the brand name,
`mention_count = 2`, `mention_rate = 0.4`, the pre-penalty score
`int(0.4 × 100)` is 40 and the consistency score is 40. -/
theorem consistency_score_formula :
    (∀ llm_results : LLMResults, platformRates llm_results ≠ [] →
      (calculate_consistency llm_results).score =
        max 0 (pyInt (llm_results.summary.overall_mention_rate * 100) -
          pyInt ((listMax ((platformRates llm_results).map Prod.snd) -
            listMin ((platformRates llm_results).map Prod.snd)) * 20))) ∧
    pdChatgpt.mention_count = 2 ∧
    pdChatgpt.mention_rate = 2/5 ∧
    llmScenario.summary.overall_mention_rate = 2/5 ∧
    pyInt ((2/5 : ℚ) * 100) = 40 ∧
    (calculate_consistency llmScenario).score = 40 := by
  have hgen : ∀ llm_results : LLMResults, platformRates llm_results ≠ [] →
      (calculate_consistency llm_results).score =
        max 0 (pyInt (llm_results.summary.overall_mention_rate * 100) -
          pyInt ((listMax ((platformRates llm_results).map Prod.snd) -
            listMin ((platformRates llm_results).map Prod.snd)) * 20)) := by
    intro llm h
    simp only [calculate_consistency]
    rw [if_neg (by simp only [List.isEmpty_iff]; exact h)]
  have hrate : pdChatgpt.mention_rate = 2/5 := by
    have h : pdChatgpt.mention_rate = ((2 : ℕ) : ℚ) / ((5 : ℕ) : ℚ) := rfl
    rw [h]; norm_num
  have hoverall : llmScenario.summary.overall_mention_rate = 2/5 := by
    have h : llmScenario.summary.overall_mention_rate =
        (((2 : ℕ) : ℤ) : ℚ) / ((5 : ℕ) : ℚ) := rfl
    rw [h]; push_cast; norm_num
  have h40 : pyInt ((2/5 : ℚ) * 100) = 40 :=
    pyInt_eq_of _ 40 (by norm_num) (by norm_num) (by norm_num)
  have hpr : platformRates llmScenario = [("chatgpt", pdChatgpt.mention_rate)] := rfl
  have hne : platformRates llmScenario ≠ [] := by
    rw [hpr]; exact List.cons_ne_nil _ _
  refine ⟨hgen, by decide, hrate, hoverall, h40, ?_⟩
  rw [hgen llmScenario hne, hpr, hoverall]
  simp only [List.map_cons, List.map_nil]
  have hmax : listMax [pdChatgpt.mention_rate] = pdChatgpt.mention_rate := rfl
  have hmin : listMin [pdChatgpt.mention_rate] = pdChatgpt.mention_rate := rfl
  rw [hmax, hmin, sub_self, zero_mul, pyInt_zero, h40]
  decide

/-- C6 witness: the general consistency formula applied to the one-provider
scenario run. -/
theorem consistency_score_formula_witness :
    platformRates llmScenario ≠ [] ∧
    (calculate_consistency llmScenario).score =
      max 0 (pyInt (llmScenario.summary.overall_mention_rate * 100) -
        pyInt ((listMax ((platformRates llmScenario).map Prod.snd) -
          listMin ((platformRates llmScenario).map Prod.snd)) * 20)) := by
  have hne : platformRates llmScenario ≠ [] := by
    have hpr : platformRates llmScenario = [("chatgpt", pdChatgpt.mention_rate)] := rfl
    rw [hpr]; exact List.cons_ne_nil _ _
  exact ⟨hne, consistency_score_formula.1 llmScenario hne⟩

/-- C9: `get_test_question` is a pure deterministic accessor: two calls on
the same stored question list and platform return the same record; any
returned question is one of the stored questions verbatim (nothing is
generated at call time); and whenever a DISCOVERY-category question exists in
the stored list, the first such question is returned, with its category. -/
theorem get_test_question_reuses_stored (questions : List Question) (platform : String) :
    get_test_question questions platform = get_test_question questions platform ∧
    (∀ tq, get_test_question questions platform = some tq →
      tq.platform = platform ∧
      ∃ q ∈ questions, tq.question = q.text ∧ tq.question_id = q.id ∧ tq.category = q.category) ∧
    (∀ q, questions.find? (fun x => x.category == "DISCOVERY") = some q →
      get_test_question questions platform =
        some { question := q.text, question_id := q.id, category := q.category
               platform := platform
               note := "This is the same question used for scoring. Results should be reproducible." }) := by
  refine ⟨rfl, ?_, ?_⟩
  · intro tq htq
    match hq : questions with
    | [] => simp [get_test_question] at htq
    | q0 :: rest =>
      rw [get_test_question] at htq
      cases hfind : (q0 :: rest).find? (fun x => x.category == "DISCOVERY") with
      | some q =>
        rw [hfind] at htq
        have hmem : q ∈ q0 :: rest := List.mem_of_find?_eq_some hfind
        cases htq
        exact ⟨rfl, q, hmem, rfl, rfl, rfl⟩
      | none =>
        rw [hfind] at htq
        cases htq
        exact ⟨rfl, q0, List.mem_cons_self q0 rest, rfl, rfl, rfl⟩
  · intro q hfind
    match hq : questions with
    | [] => simp at hfind
    | q0 :: rest =>
      rw [get_test_question, hfind]

/-- C9 witness: on a stored list whose first DISCOVERY question sits in
second position, `get_test_question` returns exactly that question, and its
text is one of the stored texts. -/
theorem get_test_question_witness :
    get_test_question questionsExample "chatgpt" =
      some { question := "What tools help with AI visibility?", question_id := "q_2"
             category := "DISCOVERY", platform := "chatgpt"
             note := "This is the same question used for scoring. Results should be reproducible." } ∧
    (∃ q ∈ questionsExample,
      "What tools help with AI visibility?" = q.text ∧ "q_2" = q.id) := by
  have h := (get_test_question_reuses_stored questionsExample "chatgpt").2.2
    { id := "q_2", text := "What tools help with AI visibility?", category := "DISCOVERY" }
    (by decide)
  refine ⟨h, ?_⟩
  have h2 := (get_test_question_reuses_stored questionsExample "chatgpt").2.1 _ h
  obtain ⟨-, q, hmem, hq1, hq2, -⟩ := h2
  exact ⟨q, hmem, hq1, hq2⟩

end Radius
